import Mathlib

/-
  Verification of the hsdbi repository interface layer.

  Shallow embedding of the two Repository backends:
  - hsdbi/sql.py   : SQLRepository / SQLFacade over a SQLAlchemy session.
    Records of a table are modelled as association lists from attribute
    name to value; the session state is the list of records in the table.
    The per-call construction of filter expressions via Python eval of a
    format string (sql.py, SQLRepository.get / search) is embedded by
    building the very code string the source builds and then running a
    structural parser over it that mirrors how Python eval reads the
    expression: an identifier path, the == operator, and a quoted string
    literal.  A code string that does not have this shape (for instance
    because the interpolated value contains a double quote) makes eval
    fail; this is modelled as a syntaxError result.
  - hsdbi/mongo.py : MongoRepository / MongoFacade over a pymongo
    collection, modelled as a list of documents (association lists).

  Not modelled: the network drivers themselves, the debug printing
  parameters (pure output), batch_size (a server paging hint that does not
  change the result sequence) and the dynamic importlib module loading in
  SQLRepository.__init__ (its observable effect, that the module key used
  by eval resolves to the orm module, is reflected in the name check the
  embedded evaluator performs).
-/

deriving instance DecidableEq for Except

namespace Hsdbi

/-- Scalar values stored in record attributes and supplied as filters
(integers and strings; the value classes exercised by the repository's
own tests). -/
inductive Value where
  | vInt (n : Int)
  | vStr (s : String)
  deriving DecidableEq, Repr

/-- Python str() of a value, as interpolated by the '%s' format specifier
in sql.py's filter construction. -/
def Value.pyStr : Value → String
  | .vInt n => toString n
  | .vStr s => s

/-- A record (SQL mapped entity attribute map / Mongo document). -/
abbrev Doc := List (String × Value)

/-- Attribute access: first binding of the attribute name (Python objects
and dicts have unique keys, so the first binding is the binding). -/
def getAttr (d : Doc) (a : String) : Option Value :=
  (d.find? (fun av => av.1 == a)).map (·.2)

/-- The error surface of the layer: usage errors (ValueError / TypeError),
the NotFoundError of hsdbi/errors.py carrying the filter values and the
table or collection identifier, and exceptions surfaced from eval or the
driver. -/
inductive DbError where
  | valueError (msg : String)
  | typeError (msg : String)
  | notFound (pk : List (String × Value)) (table : String)
  | syntaxError
  | multipleResults
  | indexError
  deriving DecidableEq, Repr

/-- Usage errors per the spec's taxonomy: missing or malformed caller
arguments, raised as ValueError or TypeError by the source. -/
def DbError.isUsageError : DbError → Bool
  | .valueError _ => true
  | .typeError _ => true
  | _ => false

/- ### The eval-based filter construction of sql.py -/

/-- Characters of a Python identifier (the source resolves attribute
names as dotted identifier paths inside the evaluated string). -/
def isIdentChar (c : Char) : Bool :=
  c.isAlphanum || c == '_'

/-- A usable identifier: nonempty and made of identifier characters. -/
def validIdent (s : String) : Bool :=
  !s.data.isEmpty && s.data.all isIdentChar

/-- True when a string contains no double quote, so that interpolating it
between double quotes in sql.py's format string yields one string
literal. -/
def noQuote (s : String) : Bool :=
  s.data.all (· != '"')

/-- The exact code string built by SQLRepository.get / SQLRepository.search:
'%s.%s.%s == "%s"' % (module_key, class_name, attr, value). -/
def filterCode (modKey clsName attr : String) (v : Value) : String :=
  modKey ++ "." ++ clsName ++ "." ++ attr ++ " == \"" ++ v.pyStr ++ "\""

/-- Reads one identifier off the front of a character stream. -/
def parseIdent (cs : List Char) : Option (List Char × List Char) :=
  let id := cs.takeWhile isIdentChar
  if id.isEmpty then none else some (id, cs.dropWhile isIdentChar)

/-- Consume one expected character off the front of the stream. -/
def expectChar (c : Char) : List Char → Option (List Char)
  | x :: rest => if x = c then some rest else none
  | [] => none

/-- Structural reading of a built filter string, mirroring how Python eval
parses it: ident '.' ident '.' ident ' == "' literal '"', where the
literal contains no quote.  Any other shape (a quote smuggled in through
the interpolated value, a malformed attribute name) fails, as eval does. -/
def parseFilterChars (cs : List Char) :
    Option (List Char × List Char × List Char × List Char) := do
  let (m, r1) ← parseIdent cs
  let r2 ← expectChar '.' r1
  let (c, r3) ← parseIdent r2
  let r4 ← expectChar '.' r3
  let (a, r5) ← parseIdent r4
  let r6 ← expectChar ' ' r5
  let r7 ← expectChar '=' r6
  let r8 ← expectChar '=' r7
  let r9 ← expectChar ' ' r8
  let r10 ← expectChar '"' r9
  match r10.reverse with
  | x :: revLit =>
    if x = '"' then
      let lit := revLit.reverse
      if lit.all (· != '"') then some (m, c, a, lit) else none
    else none
  | [] => none

/-- Python eval of a built filter code string, in the globals set up by
SQLRepository.__init__ (the module key is bound to the imported orm
module).  A successful eval yields the SQLAlchemy predicate comparing the
named column to the interpolated string literal; a string that does not
parse as such a comparison, or whose head path does not resolve to the
repository's module and class, raises. -/
def evalFilterPred (modKey clsName : String) (code : String) :
    Except DbError (Doc → Bool) :=
  match parseFilterChars code.data with
  | some (m, c, a, lit) =>
    if m = modKey.data ∧ c = clsName.data then
      .ok (fun d => getAttr d (String.mk a) == some (.vStr (String.mk lit)))
    else .error .syntaxError
  | none => .error .syntaxError

/- ### SQLRepository (hsdbi/sql.py) -/

/-- The per-table configuration of a SQLRepository that the query methods
read: the declared primary key names, the orm class name and the module
key under which the orm module was imported into globals. -/
structure SQLRepo where
  primaryKeys : List String
  clsName : String
  modKey : String
  deriving DecidableEq, Repr

/-- The records of the repository's table (the session state the queries
run against). -/
abbrev Table := List Doc

/-- A row returned by a SQLAlchemy query: a whole mapped entity, or a
tuple of column values when a projection replaced the entities. -/
inductive Row where
  | whole (d : Doc)
  | tuple (vs : List (Option Value))
  deriving DecidableEq, Repr

/-- The filter loop of SQLRepository.get / search: for each keyword
argument the query is narrowed by the predicate obtained from eval of the
built code string; the first eval failure propagates. -/
def sqlApplyFilters (modKey clsName : String)
    (filters : List (String × Value)) (pred : Doc → Bool) :
    Except DbError (Doc → Bool) :=
  match filters with
  | [] => .ok pred
  | (attr, v) :: rest =>
    match evalFilterPred modKey clsName (filterCode modKey clsName attr v) with
    | .ok f => sqlApplyFilters modKey clsName rest (fun d => pred d && f d)
    | .error e => .error e

/-- SQLRepository.project: with_entities over eval of the joined dotted
attribute paths.  Attribute names that are not plain identifiers make the
evaluated projection string malformed; the query rows become tuples of
the projected column values. -/
def sqlProject (modKey clsName : String) (proj : List String)
    (rows : List Doc) : Except DbError (List Row) :=
  if validIdent modKey && validIdent clsName && proj.all validIdent then
    .ok (rows.map (fun d => Row.tuple (proj.map (fun a => getAttr d a))))
  else .error .syntaxError

/-- SQLRepository.search.  projection = [] is the Python falsy default
(None, or an empty list), in which case no projection is applied. -/
def sqlSearch (r : SQLRepo) (tbl : Table) (proj : List String)
    (filters : List (String × Value)) : Except DbError (List Row) := do
  let pred ← sqlApplyFilters r.modKey r.clsName filters (fun _ => true)
  let rows := tbl.filter pred
  if proj.isEmpty then pure (rows.map Row.whole)
  else sqlProject r.modKey r.clsName proj rows

/-- SQLRepository.all: the unfiltered query, optionally projected. -/
def sqlAll (r : SQLRepo) (tbl : Table) (proj : List String) :
    Except DbError (List Row) :=
  if proj.isEmpty then .ok (tbl.map Row.whole)
  else sqlProject r.modKey r.clsName proj tbl

/-- The primary key loop at the top of SQLRepository.get and of the
keyword branch of SQLRepository.delete: the first declared primary key
missing from the keyword arguments. -/
def missingPk (primaryKeys : List String)
    (filters : List (String × Value)) : Option String :=
  primaryKeys.find? (fun pk => !(filters.map Prod.fst).contains pk)

/-- Query.one_or_none: no row gives None, one row gives it, several rows
raise. -/
def oneOrNone {α : Type} : List α → Except DbError (Option α)
  | [] => .ok none
  | [x] => .ok (some x)
  | _ => .error .multipleResults

/-- What SQLRepository.get hands back: the mapped entity, or result[0]
(the single projected value) when a projection was supplied. -/
inductive GetResult where
  | whole (d : Doc)
  | scalar (v : Option Value)
  deriving DecidableEq, Repr

/-- result[0] on the row returned under a projection.  Indexing None (no
row found) raises TypeError in Python; this case is handled at the call
site in sqlGet. -/
def rowIndex0 : Row → Except DbError GetResult
  | .tuple (v :: _) => .ok (.scalar v)
  | .tuple [] => .error .indexError
  | .whole _ => .error (.typeError "object is not subscriptable")

/-- SQLRepository.get, in source order: the primary key presence loop,
then the filter loop (eval per keyword argument), the optional
projection, one_or_none, the NotFoundError check (which carries the
keyword filters and the table's class), and finally the return, which
subscripts the result when a projection was supplied. -/
def sqlGet (r : SQLRepo) (tbl : Table) (expect : Bool) (proj : List String)
    (filters : List (String × Value)) : Except DbError (Option GetResult) := do
  match missingPk r.primaryKeys filters with
  | some pk => .error (.typeError ("Missing keyword argument: " ++ pk))
  | none => do
    let pred ← sqlApplyFilters r.modKey r.clsName filters (fun _ => true)
    let rows := tbl.filter pred
    let prows ←
      if proj.isEmpty then pure (rows.map Row.whole)
      else sqlProject r.modKey r.clsName proj rows
    let result ← oneOrNone prows
    if result.isNone && expect then
      .error (.notFound filters r.clsName)
    else
      if proj.isEmpty then
        .ok (result.map (fun row =>
          match row with
          | .whole d => GetResult.whole d
          | .tuple vs => GetResult.scalar (vs.head?.getD none)))
      else
        match result with
        | none => .error (.typeError "NoneType object is not subscriptable")
        | some row => do
          let g ← rowIndex0 row
          .ok (some g)

/-- The outcome of a state-mutating call: the records after the call, or
the exception that propagated together with the records as they stood
when it was raised. -/
inductive Outcome where
  | done (recs : List Doc)
  | raised (e : DbError) (recs : List Doc)
  deriving DecidableEq, Repr

/-- SQLRepository.delete.  A single object argument is the one-element
list; Python's falsy check conflates None and the empty list.  The
keyword branch validates the declared primary keys, then fetches the
record with get (expect defaulting to True) and deletes it from the
session. -/
def sqlDelete (r : SQLRepo) (tbl : Table) (items : List Doc)
    (filters : List (String × Value)) : Outcome :=
  if items.isEmpty && filters.isEmpty then
    .raised (.valueError "You must specify either items or kwargs.") tbl
  else if !items.isEmpty then
    .done (items.foldl (fun t it => t.erase it) tbl)
  else
    match missingPk r.primaryKeys filters with
    | some pk => .raised (.typeError ("Missing keyword argument: " ++ pk)) tbl
    | none =>
      match sqlGet r tbl true [] filters with
      | .error e => .raised e tbl
      | .ok (some (.whole d)) => .done (tbl.erase d)
      | .ok (some (.scalar _)) =>
        .raised (.typeError "instance is not mapped") tbl
      | .ok none => .raised (.typeError "instance is not mapped") tbl

/- ### SQLRepository construction and the facades -/

/-- A SQLAlchemy session: either built by create_sql_session from a
connection string, or handed in pre-built by the caller. -/
inductive Session where
  | fromConnStr (cs : String)
  | prebuilt (id : Nat)
  deriving DecidableEq, Repr

/-- The connection-related state a constructed SQLRepository holds. -/
structure SQLRepoState where
  repo : SQLRepo
  connectionString : Option String
  session : Option Session
  deriving DecidableEq, Repr

/-- Python truthiness of an optional connection string: None and the
empty string are falsy. -/
def pyTruthyOptStr : Option String → Bool
  | none => false
  | some s => !s.isEmpty

/-- SQLRepository.__init__: keep the arguments, then create a session
from the connection string if one was (truthily) given, else adopt the
passed session, else raise ValueError. -/
def sqlRepositoryInit (pks : List String) (cls mk : String)
    (cs : Option String) (sess : Option Session) :
    Except DbError SQLRepoState :=
  match cs with
  | some c =>
    if !c.isEmpty then
      .ok ⟨⟨pks, cls, mk⟩, some c, some (.fromConnStr c)⟩
    else
      match sess with
      | some s => .ok ⟨⟨pks, cls, mk⟩, cs, some s⟩
      | none =>
        .error (.valueError "You must pass either a session or connection string.")
  | none =>
    match sess with
    | some s => .ok ⟨⟨pks, cls, mk⟩, none, some s⟩
    | none =>
      .error (.valueError "You must pass either a session or connection string.")

/-- The state of a SQLFacade: the connection string it was constructed
with, the session created from it, and whether that session is still
open. -/
structure SQLFacadeState where
  connectionString : String
  session : Session
  sessionOpen : Bool
  deriving DecidableEq, Repr

/-- SQLFacade.__init__: store the connection string and eagerly create
the session from it. -/
def sqlFacadeInit (cs : String) : SQLFacadeState :=
  ⟨cs, .fromConnStr cs, true⟩

/-- SQLFacade.dispose: close the session. -/
def sqlFacadeDispose (f : SQLFacadeState) : SQLFacadeState :=
  { f with sessionOpen := false }

/-- SQLFacade.__enter__: re-run __init__ on the stored connection string
and return self. -/
def sqlFacadeEnter (f : SQLFacadeState) : SQLFacadeState :=
  sqlFacadeInit f.connectionString

/-- RepositoryFacade.__exit__ (inherited by SQLFacade): whatever the
exception information, call dispose. -/
def sqlFacadeExit (exc : Option DbError) (f : SQLFacadeState) :
    SQLFacadeState :=
  match exc with
  | _ => sqlFacadeDispose f

/-- Python with-statement semantics over a SQLFacade: __enter__, run the
body, and __exit__ on both the normal and the exceptional path (the
language guarantees __exit__ runs when the body raises; the facade's
__exit__ then disposes). -/
def runWithSQLFacade {α : Type} (f : SQLFacadeState)
    (body : SQLFacadeState → Except DbError α) :
    Except DbError α × SQLFacadeState :=
  let g := sqlFacadeEnter f
  match body g with
  | .ok a => (.ok a, sqlFacadeExit none g)
  | .error e => (.error e, sqlFacadeExit (some e) g)

/- ### MongoRepository (hsdbi/mongo.py) -/

/-- A pymongo query document built from keyword filters matches a stored
document when every named field is present and equal to the given value.
An empty query document matches everything. -/
def mongoMatch (filters : List (String × Value)) (d : Doc) : Bool :=
  filters.all (fun av => getAttr d av.1 == some av.2)

/-- An inclusion projection built by projection_dict: the listed fields
are kept; pymongo additionally always returns the _id field under an
inclusion projection unless it is excluded, which this layer never
does. -/
def mongoProject (proj : List String) (d : Doc) : Doc :=
  d.filter (fun av => proj.contains av.1 || av.1 == "_id")

/-- BSON-flavoured comparison used by cursor sort: missing values first,
then numbers by value, then strings lexicographically (by code points). -/
def charListLe : List Char → List Char → Bool
  | [], _ => true
  | _ :: _, [] => false
  | a :: as, b :: bs =>
    if a = b then charListLe as bs else a.toNat ≤ b.toNat

/-- Ascending comparison of two optional field values. -/
def valueLeB : Option Value → Option Value → Bool
  | none, _ => true
  | some _, none => false
  | some (.vInt m), some (.vInt n) => m ≤ n
  | some (.vInt _), some (.vStr _) => true
  | some (.vStr _), some (.vInt _) => false
  | some (.vStr s), some (.vStr t) => charListLe s.data t.data

/-- Insertion into a list sorted by le. -/
def insertLe (le : Doc → Doc → Bool) (d : Doc) : List Doc → List Doc
  | [] => [d]
  | x :: xs => if le x d then x :: insertLe le d xs else d :: x :: xs

/-- Sorting a result list by le (insertion sort; the cursor returns the
documents in sorted order). -/
def sortLe (le : Doc → Doc → Bool) : List Doc → List Doc
  | [] => []
  | d :: ds => insertLe le d (sortLe le ds)

/-- mongo.sort: ascending when sort_order is the string asc, descending
otherwise (pymongo.ASCENDING if sort_order == 'asc' else DESCENDING). -/
def mongoSortBy (sortKey : String) (sortOrder : String) (q : List Doc) :
    List Doc :=
  sortLe
    (fun d1 d2 =>
      if sortOrder == "asc" then valueLeB (getAttr d1 sortKey) (getAttr d2 sortKey)
      else valueLeB (getAttr d2 sortKey) (getAttr d1 sortKey))
    q

/-- MongoRepository.search: find(kwargs) or find(kwargs, projection_dict)
(projection = [] is the falsy default), then the optional sort.
batch_size only pages the cursor and is not part of the result. -/
def mongoSearch (coll : List Doc) (proj : List String)
    (sortKey : Option String) (sortOrder : String)
    (filters : List (String × Value)) : List Doc :=
  let q :=
    if !proj.isEmpty then (coll.filter (mongoMatch filters)).map (mongoProject proj)
    else coll.filter (mongoMatch filters)
  match sortKey with
  | none => q
  | some k => mongoSortBy k sortOrder q

/-- MongoRepository.all: find({}, projection_dict) when projecting, plain
find() otherwise, then the optional sort. -/
def mongoAll (coll : List Doc) (proj : List String)
    (sortKey : Option String) (sortOrder : String) : List Doc :=
  let q :=
    if !proj.isEmpty then (coll.filter (mongoMatch [])).map (mongoProject proj)
    else coll
  match sortKey with
  | none => q
  | some k => mongoSortBy k sortOrder q

/-- Python falsiness of the value next(cursor, None) hands back: None,
or an empty document. -/
def pyFalsyDoc : Option Doc → Bool
  | none => true
  | some d => d.isEmpty

/-- MongoRepository.get: the first document of find(kwargs) (projected if
requested), None when the cursor is empty; NotFoundError carrying the
keyword filters and the collection name when that is falsy and expected. -/
def mongoGet (coll : List Doc) (collectionName : String) (expect : Bool)
    (proj : List String) (filters : List (String × Value)) :
    Except DbError (Option Doc) :=
  let item :=
    if !proj.isEmpty then
      ((coll.filter (mongoMatch filters)).map (mongoProject proj)).head?
    else (coll.filter (mongoMatch filters)).head?
  if pyFalsyDoc item && expect then
    .error (.notFound filters collectionName)
  else .ok item

/-- delete_one: remove the first document matching the given query
document, if any. -/
def removeFirstMatch (p : Doc → Bool) : List Doc → List Doc
  | [] => []
  | d :: ds => if p d then ds else d :: removeFirstMatch p ds

/-- MongoRepository.delete: the usage check, then either delete_one per
given item (the item itself serving as the query document) or delete_one
on the keyword filters. -/
def mongoDelete (coll : List Doc) (items : List Doc)
    (filters : List (String × Value)) : Outcome :=
  if items.isEmpty && filters.isEmpty then
    .raised (.valueError "You must specify either items or kwargs.") coll
  else if !items.isEmpty then
    .done (items.foldl (fun c it => removeFirstMatch (mongoMatch it) c) coll)
  else
    .done (removeFirstMatch (mongoMatch filters) coll)

/-- The state of a MongoFacade: the server address and port it was
constructed with and whether the client connection is open. -/
structure MongoFacadeState where
  server : String
  port : Nat
  connectionOpen : Bool
  deriving DecidableEq, Repr

/-- MongoFacade.__init__: store server and port and eagerly connect. -/
def mongoFacadeInit (server : String) (port : Nat) : MongoFacadeState :=
  ⟨server, port, true⟩

/-- MongoFacade.dispose: close the client connection. -/
def mongoFacadeDispose (f : MongoFacadeState) : MongoFacadeState :=
  { f with connectionOpen := false }

/-- MongoFacade.__enter__: re-run __init__ on the stored server and port
and return self. -/
def mongoFacadeEnter (f : MongoFacadeState) : MongoFacadeState :=
  mongoFacadeInit f.server f.port

/-- RepositoryFacade.__exit__ (inherited by MongoFacade): whatever the
exception information, call dispose. -/
def mongoFacadeExit (exc : Option DbError) (f : MongoFacadeState) :
    MongoFacadeState :=
  match exc with
  | _ => mongoFacadeDispose f

/-- Python with-statement semantics over a MongoFacade. -/
def runWithMongoFacade {α : Type} (f : MongoFacadeState)
    (body : MongoFacadeState → Except DbError α) :
    Except DbError α × MongoFacadeState :=
  let g := mongoFacadeEnter f
  match body g with
  | .ok a => (.ok a, mongoFacadeExit none g)
  | .error e => (.error e, mongoFacadeExit (some e) g)

/- ### The generic exists of the abstract Repository (hsdbi/base.py) -/

/-- Repository.exists, implemented once on the base class: search with
the same keyword arguments (and no projection) and test whether the
result holds at least one record.  An exception from search propagates. -/
def existsViaSearch {ρ : Type}
    (search : List (String × Value) → Except DbError (List ρ))
    (filters : List (String × Value)) : Except DbError Bool :=
  (search filters).map (fun rs => decide (0 < rs.length))

/-- exists as inherited, unoverridden, by SQLRepository. -/
def sqlExists (r : SQLRepo) (tbl : Table)
    (filters : List (String × Value)) : Except DbError Bool :=
  existsViaSearch (fun fs => sqlSearch r tbl [] fs) filters

/-- exists as inherited, unoverridden, by MongoRepository (its search
never raises; the cursor is materialised by the len(list(...)) call). -/
def mongoExists (coll : List Doc)
    (filters : List (String × Value)) : Except DbError Bool :=
  existsViaSearch (fun fs => .ok (mongoSearch coll [] none "asc" fs)) filters

/- ### The spec-side contract, and shared example fixtures -/

/-- Modelled from the spec's words for the refinement claims about search:
records matching an exact-match conjunction of the supplied field/value
pairs, with equality taken at the values as given. -/
def specExactMatch (filters : List (String × Value)) (d : Doc) : Bool :=
  filters.all (fun av => getAttr d av.1 == some av.2)

/-- The example record with key ABC and name abc from the spec's test
scenario. -/
def fooABC : Doc := [("abbr", .vStr "ABC"), ("name", .vStr "abc")]

/-- The example record with key DEF and name def. -/
def fooDEF : Doc := [("abbr", .vStr "DEF"), ("name", .vStr "def")]

/-- The example record with key GHI and name def. -/
def fooGHI : Doc := [("abbr", .vStr "GHI"), ("name", .vStr "def")]

/-- The example relational repository: class Foo in module key
testing_tests, primary key abbr. -/
def fooRepo : SQLRepo := ⟨["abbr"], "Foo", "testing_tests"⟩

/- ### Helper lemmas about the embedded eval of filter code strings -/

theorem data_append (a b : String) : (a ++ b).data = a.data ++ b.data := rfl

theorem takeWhile_append_stop (p : Char → Bool) (l : List Char) (c : Char)
    (r : List Char) (hl : l.all p = true) (hc : p c = false) :
    (l ++ c :: r).takeWhile p = l ∧ (l ++ c :: r).dropWhile p = c :: r := by
  induction l with
  | nil =>
    simp [List.takeWhile_cons, List.dropWhile_cons, hc]
  | cons x xs ih =>
    simp only [List.all_cons, Bool.and_eq_true] at hl
    obtain ⟨hx, hxs⟩ := hl
    obtain ⟨iht, ihd⟩ := ih hxs
    simp [List.cons_append, List.takeWhile_cons, List.dropWhile_cons, hx,
      iht, ihd]

theorem parseIdent_exact (l : List Char) (c : Char) (r : List Char)
    (hne : l.isEmpty = false) (hl : l.all isIdentChar = true)
    (hc : isIdentChar c = false) :
    parseIdent (l ++ c :: r) = some (l, c :: r) := by
  obtain ⟨ht, hd⟩ := takeWhile_append_stop isIdentChar l c r hl hc
  unfold parseIdent
  simp [ht, hd, hne]

theorem parseFilterChars_roundtrip (m c a lit : String)
    (hm : validIdent m = true) (hc : validIdent c = true)
    (ha : validIdent a = true) (hlit : noQuote lit = true) :
    parseFilterChars (filterCode m c a (.vStr lit)).data
      = some (m.data, c.data, a.data, lit.data) := by
  obtain ⟨hm1, hm2⟩ := Bool.and_eq_true_iff.mp hm
  obtain ⟨hc1, hc2⟩ := Bool.and_eq_true_iff.mp hc
  obtain ⟨ha1, ha2⟩ := Bool.and_eq_true_iff.mp ha
  rw [Bool.not_eq_true'] at hm1 hc1 ha1
  have hdata : (filterCode m c a (.vStr lit)).data
      = m.data ++ '.' :: (c.data ++ '.'
          :: (a.data ++ ' ' :: '=' :: '=' :: ' ' :: '"'
            :: (lit.data ++ ['"']))) := by
    simp only [filterCode, Value.pyStr, data_append, List.append_assoc,
      List.cons_append, List.nil_append]
  rw [hdata]
  unfold parseFilterChars
  rw [parseIdent_exact m.data '.' _ hm1 hm2 (by decide)]
  simp only [Option.bind_eq_bind, Option.some_bind, expectChar,
    eq_self_iff_true, if_true]
  rw [parseIdent_exact c.data '.' _ hc1 hc2 (by decide)]
  simp only [Option.some_bind, eq_self_iff_true, if_true]
  rw [parseIdent_exact a.data ' ' _ ha1 ha2 (by decide)]
  simp only [Option.some_bind, eq_self_iff_true, if_true]
  simp only [List.reverse_append, List.reverse_cons, List.reverse_nil,
    List.nil_append, List.singleton_append, List.reverse_reverse]
  unfold noQuote at hlit
  simp [hlit]

theorem evalFilterPred_roundtrip (mk cn attr lit : String)
    (hmk : validIdent mk = true) (hcn : validIdent cn = true)
    (hattr : validIdent attr = true) (hlit : noQuote lit = true) :
    evalFilterPred mk cn (filterCode mk cn attr (.vStr lit))
      = .ok (fun d => getAttr d attr == some (.vStr lit)) := by
  unfold evalFilterPred
  rw [parseFilterChars_roundtrip mk cn attr lit hmk hcn hattr hlit]
  show (if mk.data = mk.data ∧ cn.data = cn.data then
      (Except.ok (fun d => getAttr d (String.mk attr.data)
          == some (.vStr (String.mk lit.data)))
        : Except DbError (Doc → Bool))
    else .error .syntaxError)
    = .ok (fun d => getAttr d attr == some (.vStr lit))
  rw [if_pos ⟨rfl, rfl⟩]

theorem sqlApplyFilters_spec (mk cn : String)
    (hmk : validIdent mk = true) (hcn : validIdent cn = true) :
    ∀ (filters : List (String × Value)) (pred : Doc → Bool),
      (∀ av ∈ filters,
        validIdent av.1 = true ∧ ∃ s, av.2 = Value.vStr s ∧ noQuote s = true) →
      sqlApplyFilters mk cn filters pred
        = .ok (fun d => pred d && specExactMatch filters d) := by
  intro filters
  induction filters with
  | nil =>
    intro pred _
    unfold sqlApplyFilters
    exact congrArg Except.ok (funext fun d => by simp [specExactMatch])
  | cons av rest ih =>
    intro pred h
    obtain ⟨attr, v⟩ := av
    obtain ⟨hid, s, hs, hq⟩ := h (attr, v) (List.mem_cons_self _ _)
    subst hs
    unfold sqlApplyFilters
    rw [evalFilterPred_roundtrip mk cn attr s hmk hcn hid hq]
    show sqlApplyFilters mk cn rest
        (fun d => pred d && (getAttr d attr == some (Value.vStr s)))
      = _
    rw [ih _ (fun av2 h2 => h av2 (List.mem_cons_of_mem _ h2))]
    refine congrArg Except.ok (funext fun d => ?_)
    simp [specExactMatch, Bool.and_assoc]

theorem removeFirstMatch_filter_pos (p : Doc → Bool) (l : List Doc) :
    (removeFirstMatch p l).filter p = (l.filter p).tail := by
  induction l with
  | nil => rfl
  | cons d ds ih =>
    by_cases h : p d
    · simp [removeFirstMatch, h, List.filter_cons]
    · simp [removeFirstMatch, h, List.filter_cons, ih]

theorem removeFirstMatch_filter_neg (p : Doc → Bool) (l : List Doc) :
    (removeFirstMatch p l).filter (fun d => !(p d))
      = l.filter (fun d => !(p d)) := by
  induction l with
  | nil => rfl
  | cons d ds ih =>
    by_cases h : p d
    · simp [removeFirstMatch, h, List.filter_cons]
    · simp [removeFirstMatch, h, List.filter_cons, ih]

/- ### Claim theorems -/

/-- C1: the expect=true half of the claim holds on both backends (get on
zero matches raises NotFoundError carrying the filter values and the
table class or collection name), but the expect=false half fails on the
relational backend when a projection is supplied: SQLRepository.get then
evaluates result[0] with result = None and raises a TypeError instead of
returning the absent result.  The document-store get returns None without
raising on the same shape of call. -/
theorem sql_get_not_expected_projection_raises :
    sqlGet fooRepo [] false ["name"] [("abbr", .vStr "ZZZ")]
      = .error (.typeError "NoneType object is not subscriptable")
    ∧ sqlGet fooRepo [] true ["name"] [("abbr", .vStr "ZZZ")]
      = .error (.notFound [("abbr", .vStr "ZZZ")] "Foo")
    ∧ mongoGet [] "foos" false ["name"] [("abbr", .vStr "ZZZ")] = .ok none := by
  refine ⟨rfl, rfl, rfl⟩

/-- C2 (counterexample): search does not return the records whose
attributes equal the filter values as given.  A value containing a double
quote breaks the evaluated code string, so the call raises instead of
returning the one exactly-matching record. -/
theorem sql_search_quote_value_not_exact_match :
    sqlSearch fooRepo [[("name", Value.vStr "a\"b")]] []
        [("name", Value.vStr "a\"b")]
      = .error .syntaxError
    ∧ sqlSearch fooRepo [[("name", Value.vStr "a\"b")]] []
        [("name", Value.vStr "a\"b")]
      ≠ .ok (([[("name", Value.vStr "a\"b")]].filter
                (specExactMatch [("name", Value.vStr "a\"b")])).map Row.whole) := by
  refine ⟨rfl, by decide⟩

/-- C2 (amended): on filter values that are strings free of double
quotes (and identifier attribute, module and class names), search is the
exact-match conjunction of the supplied field/value pairs.  Values are
interpolated into the evaluated code string as quoted literals, so a
value whose text holds a double quote makes the call raise instead, and
non-string values are compared via their string representation. -/
theorem sql_search_exact_match_plain_strings :
    ∀ (r : SQLRepo) (tbl : Table) (filters : List (String × Value)),
      validIdent r.modKey = true → validIdent r.clsName = true →
      (∀ av ∈ filters,
        validIdent av.1 = true ∧ ∃ s, av.2 = Value.vStr s ∧ noQuote s = true) →
      sqlSearch r tbl [] filters
        = .ok ((tbl.filter (specExactMatch filters)).map Row.whole) := by
  intro r tbl filters hmk hcn hf
  unfold sqlSearch
  rw [sqlApplyFilters_spec r.modKey r.clsName hmk hcn filters _ hf]
  show Except.ok ((tbl.filter
      (fun d => (fun _ => true) d && specExactMatch filters d)).map Row.whole)
    = _
  rw [List.filter_congr (fun d _ => by simp :
    ∀ d ∈ tbl, ((fun x => true) d && specExactMatch filters d)
      = specExactMatch filters d)]

/-- C2 (witness for the amended claim): the spec's own example scenario,
searching name def over the three example records, returns exactly the
DEF and GHI records in insertion order. -/
theorem sql_search_exact_match_plain_strings_witness :
    validIdent fooRepo.modKey = true ∧ validIdent fooRepo.clsName = true ∧
    sqlSearch fooRepo [fooABC, fooDEF, fooGHI] [] [("name", Value.vStr "def")]
      = .ok (([fooABC, fooDEF, fooGHI].filter
               (specExactMatch [("name", Value.vStr "def")])).map Row.whole) :=
  ⟨by decide, by decide,
   sql_search_exact_match_plain_strings fooRepo [fooABC, fooDEF, fooGHI]
     [("name", Value.vStr "def")] (by decide) (by decide)
     (fun av h => by
        rw [List.mem_singleton] at h
        subst h
        exact ⟨by decide, "def", rfl, by decide⟩)⟩

/-- C3: field and value resolution in the relational filter path is not
a static attribute lookup: the code string handed to eval conflates
distinct filter requests (two different attribute/value pairs build the
identical code string, so eval cannot tell them apart), and a value
holding a double quote changes the structure of the evaluated code so
that the call raises. -/
theorem filter_code_eval_not_static_lookup :
    filterCode "m" "Foo" "a == \"b" (.vStr "c")
      = filterCode "m" "Foo" "a" (.vStr "b == \"c")
    ∧ ("a == \"b", Value.vStr "c") ≠ ("a", Value.vStr "b == \"c")
    ∧ evalFilterPred "m" "Foo" (filterCode "m" "Foo" "name" (.vStr "x\"y"))
      = .error .syntaxError := by
  refine ⟨by decide, by decide, rfl⟩

/-- C4: search with no filters returns the same result as all, with the
same projection, on both backends (for the document store also under any
sort arguments, which the two calls share). -/
theorem search_no_filters_is_all :
    (∀ (r : SQLRepo) (tbl : Table) (proj : List String),
      sqlSearch r tbl proj [] = sqlAll r tbl proj) ∧
    (∀ (coll : List Doc) (proj : List String) (sortKey : Option String)
       (sortOrder : String),
      mongoSearch coll proj sortKey sortOrder []
        = mongoAll coll proj sortKey sortOrder) := by
  constructor
  · intro r tbl proj
    show (if proj.isEmpty then
        Except.ok ((tbl.filter (fun _ => true)).map Row.whole)
      else sqlProject r.modKey r.clsName proj (tbl.filter (fun _ => true)))
      = sqlAll r tbl proj
    rw [List.filter_true]
    rfl
  · intro coll proj sortKey sortOrder
    have h : coll.filter (mongoMatch []) = coll := by
      rw [@List.filter_congr _ (mongoMatch []) (fun _ => true) coll
        (fun d _ => rfl)]
      exact List.filter_true coll
    unfold mongoSearch mongoAll
    rw [h]

/-- C5: exists is true exactly when search with the same filters (and no
projection) yields at least one record, on both backends; both inherit
the single base-class implementation, which materialises search's result
and tests its length. -/
theorem exists_iff_search_nonempty :
    ∀ (r : SQLRepo) (tbl : Table) (coll : List Doc)
      (filters : List (String × Value)) (rs : List Row),
      sqlSearch r tbl [] filters = .ok rs →
      ((sqlExists r tbl filters = .ok true ↔ 0 < rs.length) ∧
       (mongoExists coll filters = .ok true
         ↔ 0 < (mongoSearch coll [] none "asc" filters).length)) := by
  intro r tbl coll filters rs h
  constructor
  · unfold sqlExists existsViaSearch
    show Except.map (fun rs => decide (0 < rs.length)) (sqlSearch r tbl [] filters)
        = Except.ok true
      ↔ 0 < rs.length
    rw [h]
    show Except.ok (decide (0 < rs.length)) = Except.ok true ↔ 0 < rs.length
    constructor
    · intro he
      injection he with he2
      exact of_decide_eq_true he2
    · intro hp
      rw [decide_eq_true hp]
  · unfold mongoExists existsViaSearch
    show Except.ok (decide (0 < (mongoSearch coll [] none "asc" filters).length))
        = Except.ok true
      ↔ 0 < (mongoSearch coll [] none "asc" filters).length
    constructor
    · intro he
      injection he with he2
      exact of_decide_eq_true he2
    · intro hp
      rw [decide_eq_true hp]

/-- C5 (witness): on a one-record table, exists by primary key is true on
both backends, in agreement with the one-element search result. -/
theorem exists_iff_search_nonempty_witness :
    sqlSearch fooRepo [fooABC] [] [("abbr", Value.vStr "ABC")]
      = .ok [Row.whole fooABC]
    ∧ ((sqlExists fooRepo [fooABC] [("abbr", Value.vStr "ABC")] = .ok true
        ↔ 0 < ([Row.whole fooABC] : List Row).length)
       ∧ (mongoExists [fooABC] [("abbr", Value.vStr "ABC")] = .ok true
          ↔ 0 < (mongoSearch [fooABC] [] none "asc"
                  [("abbr", Value.vStr "ABC")]).length)) :=
  ⟨rfl, exists_iff_search_nonempty fooRepo [fooABC] [fooABC]
     [("abbr", Value.vStr "ABC")] [Row.whole fooABC] rfl⟩

/-- C6: on the relational backend, when a declared primary key is absent
from the filters, get raises the missing-keyword-argument usage error for
every table state, projection and expect flag (the check precedes query
construction, so it fires even on filters whose evaluation would fail),
and filter-form delete raises a usage error with the table left exactly
as it was. -/
theorem sql_missing_pk_usage_error_before_query :
    ∀ (r : SQLRepo) (tbl : Table) (expect : Bool) (proj : List String)
      (filters : List (String × Value)) (pk : String),
      missingPk r.primaryKeys filters = some pk →
      (sqlGet r tbl expect proj filters
         = .error (.typeError ("Missing keyword argument: " ++ pk))
       ∧ ∃ e, e.isUsageError = true
           ∧ sqlDelete r tbl [] filters = .raised e tbl) := by
  intro r tbl expect proj filters pk h
  constructor
  · unfold sqlGet
    rw [h]
  · cases hf : filters with
    | nil =>
      exact ⟨.valueError "You must specify either items or kwargs.", rfl, rfl⟩
    | cons f fs =>
      refine ⟨.typeError ("Missing keyword argument: " ++ pk), rfl, ?_⟩
      rw [hf] at h
      unfold sqlDelete
      simp [h]

/-- C6 (witness): with declared primary key abbr and a filter naming only
name, get raises the usage error on a concrete table and delete leaves
it untouched. -/
theorem sql_missing_pk_usage_error_before_query_witness :
    missingPk fooRepo.primaryKeys [("name", Value.vStr "x")] = some "abbr"
    ∧ (sqlGet fooRepo [fooABC] true [] [("name", Value.vStr "x")]
         = .error (.typeError ("Missing keyword argument: " ++ "abbr"))
       ∧ ∃ e, e.isUsageError = true
           ∧ sqlDelete fooRepo [fooABC] [] [("name", Value.vStr "x")]
               = .raised e [fooABC]) :=
  ⟨rfl, sql_missing_pk_usage_error_before_query fooRepo [fooABC] true []
     [("name", Value.vStr "x")] "abbr" rfl⟩

/-- C7: delete with no items and no filters raises the usage ValueError
on both backends, and the records are exactly as they were when the
exception propagates. -/
theorem delete_no_arguments_usage_error :
    ∀ (r : SQLRepo) (tbl : Table) (coll : List Doc),
      sqlDelete r tbl [] []
        = .raised (.valueError "You must specify either items or kwargs.") tbl
      ∧ mongoDelete coll [] []
        = .raised (.valueError "You must specify either items or kwargs.") coll := by
  intro r tbl coll
  exact ⟨rfl, rfl⟩

/-- C8 (counterexample): constructing a SQLRepository with both a
connection string and a pre-built session succeeds (the connection string
takes precedence and a fresh session is created from it), so a successful
construction does not imply that exactly one of the two was given. -/
theorem sql_repository_init_both_given_succeeds :
    sqlRepositoryInit ["id"] "Foo" "m" (some "mysql://c") (some (.prebuilt 0))
      = .ok ⟨⟨["id"], "Foo", "m"⟩, some "mysql://c",
             some (.fromConnStr "mysql://c")⟩
    ∧ ((pyTruthyOptStr (some "mysql://c")).xor
        (some (Session.prebuilt 0)).isSome) = false := by
  exact ⟨rfl, rfl⟩

/-- C8 (amended): construction succeeds exactly when at least one of a
(truthy, that is non-empty) connection string or a session is given, and
with neither it raises the usage ValueError. -/
theorem sql_repository_init_at_least_one :
    ∀ (pks : List String) (cls mk : String) (cs : Option String)
      (sess : Option Session),
      ((sqlRepositoryInit pks cls mk cs sess).isOk
        = (pyTruthyOptStr cs || sess.isSome))
      ∧ (pyTruthyOptStr cs = false → sess = none →
          sqlRepositoryInit pks cls mk cs sess
            = .error (.valueError
                "You must pass either a session or connection string.")) := by
  intro pks cls mk cs sess
  constructor
  · cases cs with
    | none => cases sess <;> rfl
    | some c =>
      by_cases h : c.isEmpty
      · cases sess <;> simp [sqlRepositoryInit, pyTruthyOptStr, h, Except.isOk,
          Except.toBool]
      · simp [sqlRepositoryInit, pyTruthyOptStr, h, Except.isOk, Except.toBool]
  · intro h1 h2
    subst h2
    cases cs with
    | none => rfl
    | some c =>
      simp only [pyTruthyOptStr, Bool.not_eq_true'] at h1
      simp [sqlRepositoryInit, h1]

/-- C8 (witness): with neither argument, construction reports failure and
raises the usage ValueError. -/
theorem sql_repository_init_at_least_one_witness :
    ((sqlRepositoryInit ["id"] "Foo" "m" none none).isOk
      = (pyTruthyOptStr none || (none : Option Session).isSome))
    ∧ (sqlRepositoryInit ["id"] "Foo" "m" none none
        = .error (.valueError
            "You must pass either a session or connection string.")) :=
  ⟨(sql_repository_init_at_least_one ["id"] "Foo" "m" none none).1,
   (sql_repository_init_at_least_one ["id"] "Foo" "m" none none).2 rfl rfl⟩

/-- C9: entering a facade re-runs its construction on the originally
supplied parameters (the stored connection string, or server and port)
and yields that re-initialised facade; the inherited exit handler calls
dispose whatever the exception information, so that under with-statement
semantics the final state is the disposed entered facade on the normal
path and on the raising path alike. -/
theorem facade_enter_reinit_exit_always_disposes :
    (∀ f : SQLFacadeState, sqlFacadeEnter f = sqlFacadeInit f.connectionString) ∧
    (∀ (f : SQLFacadeState) (exc : Option DbError),
      sqlFacadeExit exc f = sqlFacadeDispose f) ∧
    (∀ (α : Type) (f : SQLFacadeState) (body : SQLFacadeState → Except DbError α),
      (runWithSQLFacade f body).2 = sqlFacadeDispose (sqlFacadeEnter f)
      ∧ ((runWithSQLFacade f body).2).sessionOpen = false) ∧
    (∀ f : MongoFacadeState, mongoFacadeEnter f = mongoFacadeInit f.server f.port) ∧
    (∀ (f : MongoFacadeState) (exc : Option DbError),
      mongoFacadeExit exc f = mongoFacadeDispose f) ∧
    (∀ (α : Type) (f : MongoFacadeState)
       (body : MongoFacadeState → Except DbError α),
      (runWithMongoFacade f body).2 = mongoFacadeDispose (mongoFacadeEnter f)
      ∧ ((runWithMongoFacade f body).2).connectionOpen = false) := by
  refine ⟨fun f => rfl, fun f exc => rfl, ?_, fun f => rfl, fun f exc => rfl, ?_⟩
  · intro α f body
    cases hb : body (sqlFacadeEnter f) <;>
      simp [runWithSQLFacade, hb, sqlFacadeExit, sqlFacadeDispose]
  · intro α f body
    cases hb : body (mongoFacadeEnter f) <;>
      simp [runWithMongoFacade, hb, mongoFacadeExit, mongoFacadeDispose]

/-- C10: filter-form delete on the document store removes exactly the
first matching document: afterwards the matching documents are the tail
of the previously matching ones (so at most one was removed, even when
several match) and the non-matching documents are exactly as before. -/
theorem mongo_delete_filter_form_at_most_one :
    ∀ (coll : List Doc) (filters : List (String × Value)),
      filters ≠ [] →
      (mongoDelete coll [] filters
         = .done (removeFirstMatch (mongoMatch filters) coll)
       ∧ (removeFirstMatch (mongoMatch filters) coll).filter (mongoMatch filters)
           = (coll.filter (mongoMatch filters)).tail
       ∧ (removeFirstMatch (mongoMatch filters) coll).filter
             (fun d => !(mongoMatch filters d))
           = coll.filter (fun d => !(mongoMatch filters d))) := by
  intro coll filters hne
  refine ⟨?_, removeFirstMatch_filter_pos _ _, removeFirstMatch_filter_neg _ _⟩
  cases filters with
  | nil => exact absurd rfl hne
  | cons f fs => rfl

/-- C10 (witness): deleting by name def from the two-record collection
removes only the first of the two matching documents. -/
theorem mongo_delete_filter_form_at_most_one_witness :
    ([("name", Value.vStr "def")] : List (String × Value)) ≠ []
    ∧ (mongoDelete [fooDEF, fooGHI] [] [("name", Value.vStr "def")]
         = .done (removeFirstMatch (mongoMatch [("name", Value.vStr "def")])
                    [fooDEF, fooGHI])
       ∧ (removeFirstMatch (mongoMatch [("name", Value.vStr "def")])
            [fooDEF, fooGHI]).filter (mongoMatch [("name", Value.vStr "def")])
           = ([fooDEF, fooGHI].filter
               (mongoMatch [("name", Value.vStr "def")])).tail
       ∧ (removeFirstMatch (mongoMatch [("name", Value.vStr "def")])
            [fooDEF, fooGHI]).filter
             (fun d => !(mongoMatch [("name", Value.vStr "def")] d))
           = [fooDEF, fooGHI].filter
               (fun d => !(mongoMatch [("name", Value.vStr "def")] d))) :=
  ⟨by decide,
   mongo_delete_filter_form_at_most_one [fooDEF, fooGHI]
     [("name", Value.vStr "def")] (by decide)⟩

end Hsdbi
